import Mathlib

/-!
# Verification of the pytest-assume soft-assertion core

Shallow embedding of `pytest_assume/plugin.py`. Python values that `assume`
may receive are modelled by `PyVal` with Python truthiness; the two
module-level global lists `_FAILED_ASSUMPTIONS` and `_ASSUMPTION_LOCALS`
become the explicit `PluginState`, threaded through `assume` and through the
finalization step of the `pytest_pyfunc_call` hook wrapper. The external
collaborators (`os.path.relpath`, `py.io.saferepr`) are injected as function
parameters bundled in `Env`.
-/

namespace PytestAssume

/-- Model of the Python values a test may pass as `expr` to `assume`. -/
inductive PyVal where
  | none
  | bool (b : Bool)
  | int (n : Int)
  | str (s : String)
deriving DecidableEq, Repr

/-- Python truthiness (`if not expr` coerces `expr` to a truth value):
`None` and numeric zero and the empty string are falsy. -/
def PyVal.truthy : PyVal → Bool
  | .none => false
  | .bool b => b
  | .int n => !(n == 0)
  | .str s => !(s.isEmpty)

/-- The run configuration consumed by the plugin: the builtin `--showlocals`
flag (read in `pytest_configure` via `config.getoption("showlocals")`) and
the `--assume-max-repr-len` option registered by `pytest_addoption`. -/
structure Config where
  showlocals : Bool
  assumeMaxReprLen : Nat
deriving DecidableEq, Repr

/-- `pytest_addoption` registers `--assume-max-repr-len` with default 240. -/
def assumeMaxReprLenDefault : Nat := 240

/-- Ambient environment of one run: the external collaborators
`os.path.relpath` and `saferepr` (from `py.io`, or builtin `repr` as
fallback), plus `pytest._showlocals` as set by `pytest_configure`. -/
structure Env where
  relpath : String → String
  saferepr : PyVal → String
  showlocals : Bool

/-- `pytest_configure` sets `pytest._showlocals = config.getoption("showlocals")`
(and exposes `assume` on the pytest namespace); the resulting ambient state is
modelled by `Env`. Note it reads nothing but `showlocals` from the config. -/
def pytest_configure (config : Config) (relpath : String → String)
    (saferepr : PyVal → String) : Env :=
  { relpath := relpath, saferepr := saferepr, showlocals := config.showlocals }

/-- A call site as produced by `inspect.stack()[1]`: the caller's file name,
line number, and the source line text (`contextlist[0]`). -/
structure CallSite where
  filename : String
  line : Nat
  srcLine : String
deriving DecidableEq, Repr

/-- The two module-level globals `_FAILED_ASSUMPTIONS` (formatted entry
strings) and `_ASSUMPTION_LOCALS` (one list of pretty-printed locals lines
per recorded failure), made explicit state. -/
structure PluginState where
  failedAssumptions : List String
  assumptionLocals : List (List String)
deriving DecidableEq, Repr

/-- Both global lists start empty at module import. -/
def emptyState : PluginState := { failedAssumptions := [], assumptionLocals := [] }

/-- Python `str.lstrip()`: drop leading whitespace. -/
def lstrip (s : String) : String := String.mk (s.data.dropWhile Char.isWhitespace)

/-- Python `"%-10s" % name`: left-justify in a field of width 10 (no
truncation when longer). -/
def padTo10 (s : String) : String :=
  s ++ String.mk (List.replicate (10 - s.length) ' ')

/-- The entry built at `plugin.py:33-36`:
`"{filename}:{line}: AssumptionFailure\n>>\t{context}"` where `filename` is
`os.path.relpath(filename)` and `context` is `contextlist[0].lstrip()` when
`msg` is empty, else `msg`. -/
def mkEntry (env : Env) (site : CallSite) (msg : String) : String :=
  let filename := env.relpath site.filename
  let context := if msg.isEmpty then lstrip site.srcLine else msg
  filename ++ ":" ++ toString site.line ++ ": AssumptionFailure\n>>\t" ++ context

/-- `plugin.py:44-45`: `["\t%-10s = %s" % (name, saferepr(val)) for name, val
in frame.f_locals.items()]` — note `saferepr` is called with no maximum
length argument. -/
def prettyLocals (env : Env) (callerLocals : List (String × PyVal)) : List String :=
  callerLocals.map (fun nv => "\t" ++ padTo10 nv.1 ++ " = " ++ env.saferepr nv.2)

/-- `assume(expr, msg='')` from `plugin.py:20-50`. The caller's frame data
(`inspect.stack()[1]`) is passed in as `site` and `callerLocals`
(`frame.f_locals` snapshot at call time, as name/value pairs in iteration
order). Returns the Python value the function returns (`False` or `True`)
together with the updated global state; the source contains no `raise`, so
the embedding is a total function. -/
def assume (env : Env) (expr : PyVal) (msg : String) (site : CallSite)
    (callerLocals : List (String × PyVal)) (st : PluginState) :
    PyVal × PluginState :=
  if !expr.truthy then
    let entry := mkEntry env site msg
    let st1 : PluginState :=
      { st with failedAssumptions := st.failedAssumptions ++ [entry] }
    let st2 : PluginState :=
      if env.showlocals then
        { st1 with assumptionLocals :=
            st1.assumptionLocals ++ [prettyLocals env callerLocals] }
      else st1
    (PyVal.bool false, st2)
  else
    (PyVal.bool true, st)

/-- `sys.exc_info()`-style data carried by `outcome.excinfo`: the `repr` of
the exception value (`repr(outcome.excinfo[1])`) and an abstract token for
the traceback object (`outcome.excinfo[2]`). -/
structure ExcInfo where
  excRepr : String
  tb : Nat
deriving DecidableEq, Repr

/-- The hook outcome yielded to the wrapper; `excinfo` is set when the test
body raised a hard failure. -/
structure Outcome where
  excinfo : Option ExcInfo
deriving DecidableEq, Repr

/-- What the wrapper's `finally` block does to the test unit's result:
either it raises nothing (the original outcome propagates unchanged), or it
raises `FailedAssumption(msg)`; `tb` records the traceback attached by
`six.reraise(FailedAssumption, FailedAssumption(msg), outcome.excinfo[2])`
(`none` for a plain `raise`). -/
inductive FinalResult where
  | passthrough
  | failedAssumption (msg : String) (tb : Option Nat)
deriving DecidableEq, Repr

/-- `plugin.py:95-100`: build `longrepr`. When `_ASSUMPTION_LOCALS` is
non-empty, zip it with the failure entries and render one block per failure;
otherwise a single string joining the entries with blank lines. -/
def renderLongrepr (failed : List String) (locs : List (List String)) :
    List String :=
  if !locs.isEmpty then
    (failed.zip locs).map
      (fun p => p.1 ++ "\nLocals:\n" ++ String.intercalate "\n" p.2 ++ "\n\n")
  else
    [String.intercalate "\n\n" failed]

/-- The `finally` block of the `pytest_pyfunc_call` hook wrapper
(`plugin.py:89-108`), run unconditionally after the test body: drain the
globals and, if any assumption failed, raise an aggregated
`FailedAssumption`, re-raising with the original traceback when a hard
failure was in flight. -/
def pytest_pyfunc_call (outcome : Option Outcome) (st : PluginState) :
    FinalResult × PluginState :=
  let failed := st.failedAssumptions
  let locs := st.assumptionLocals
  if failed.isEmpty then
    (FinalResult.passthrough, st)
  else
    let rootMsg := "\n" ++ toString failed.length ++ " Failed Assumptions:\n"
    let longrepr := renderLongrepr failed locs
    let cleared : PluginState := { failedAssumptions := [], assumptionLocals := [] }
    match outcome with
    | some o =>
      match o.excinfo with
      | some e =>
        (FinalResult.failedAssumption
          ("\nOriginal Failure: \n>> " ++ e.excRepr ++ "\n" ++ rootMsg
            ++ String.join longrepr) (some e.tb), cleared)
      | Option.none =>
        (FinalResult.failedAssumption (rootMsg ++ String.join longrepr)
          Option.none, cleared)
    | Option.none =>
      (FinalResult.failedAssumption (rootMsg ++ String.join longrepr)
        Option.none, cleared)

/-- One `pytest.assume(...)` call inside a test body: the expression value,
the message, the call site, and the caller's locals at that moment. -/
structure CheckCall where
  expr : PyVal
  msg : String
  site : CallSite
  callerLocals : List (String × PyVal)
deriving DecidableEq, Repr

/-- The state effect of one `assume` call. -/
def assumeStep (env : Env) (c : CheckCall) (st : PluginState) : PluginState :=
  (assume env c.expr c.msg c.site c.callerLocals st).2

/-- Run a test body's sequence of `assume` calls in program order. -/
def runChecks (env : Env) (calls : List CheckCall) (st : PluginState) :
    PluginState :=
  calls.foldl (fun s c => assumeStep env c s) st

/-- One whole test unit seen by the wrapper: the body's `assume` calls
followed by the unconditional finalization with the body's outcome. -/
def runTestUnit (env : Env) (calls : List CheckCall) (outcome : Option Outcome)
    (st : PluginState) : FinalResult × PluginState :=
  pytest_pyfunc_call outcome (runChecks env calls st)

/-- The calls whose expression is falsy — exactly the ones `assume` records. -/
def failingCalls (calls : List CheckCall) : List CheckCall :=
  calls.filter (fun c => !c.expr.truthy)

/-- The entries the failing calls of a test body leave in
`_FAILED_ASSUMPTIONS`, in program order. -/
def entriesOf (env : Env) (calls : List CheckCall) : List String :=
  (failingCalls calls).map (fun c => mkEntry env c.site c.msg)

/-- The string the wrapper prepends to the aggregate message when a hard
failure was in flight (`plugin.py:105`); empty otherwise. -/
def originalNote : Option Outcome → String
  | some o =>
    match o.excinfo with
    | some e => "\nOriginal Failure: \n>> " ++ e.excRepr ++ "\n"
    | Option.none => ""
  | Option.none => ""

/-- A simple concrete stand-in for the external `saferepr` collaborator,
used to instantiate theorems on concrete runs. -/
def reprPy : PyVal → String
  | .none => "None"
  | .bool true => "True"
  | .bool false => "False"
  | .int n => toString n
  | .str s => s

/-- A concrete run environment with `--showlocals` off. -/
def envNoLocals : Env := pytest_configure ⟨false, assumeMaxReprLenDefault⟩ id reprPy

/-- A concrete run environment with `--showlocals` on. -/
def envLocals : Env := pytest_configure ⟨true, assumeMaxReprLenDefault⟩ id reprPy

/-- A sample call site (a bare `pytest.assume(False)` line). -/
def siteA : CallSite := ⟨"test_a.py", 3, "    pytest.assume(False)"⟩

/-- A second sample call site in a different test file. -/
def siteB : CallSite := ⟨"test_b.py", 7, "    pytest.assume(x == 2)"⟩

/-- A failing check at `siteA`, no message, no interesting locals. -/
def callA : CheckCall := ⟨PyVal.bool false, "", siteA, []⟩

/-- A failing check at `siteB`. -/
def callB : CheckCall := ⟨PyVal.bool false, "", siteB, []⟩

/-- A passing check. -/
def callTrue : CheckCall := ⟨PyVal.bool true, "", siteA, []⟩

/-- A failing check whose caller has a local `x` bound to a 10-character
string, to exercise locals capture. -/
def longLocalCall : CheckCall :=
  ⟨PyVal.bool false, "", siteA, [("x", PyVal.str "abcdefghij")]⟩

/-- A sample hard failure in flight at finalization. -/
def excSample : ExcInfo := ⟨"AssertionError()", 42⟩

/-- A sample outcome carrying `excSample`. -/
def outcomeSample : Outcome := ⟨some excSample⟩

/- ### Helper lemmas -/

lemma strAppendAssoc (a b c : String) : a ++ b ++ c = a ++ (b ++ c) := by
  rcases a with ⟨la⟩
  rcases b with ⟨lb⟩
  rcases c with ⟨lc⟩
  show String.mk (la ++ lb ++ lc) = String.mk (la ++ (lb ++ lc))
  rw [List.append_assoc]

lemma strJoinSingleton (s : String) : String.join [s] = s :=
  String.empty_append s

lemma assumeStep_eq (env : Env) (c : CheckCall) (st : PluginState) :
    assumeStep env c st =
      if !c.expr.truthy then
        { failedAssumptions := st.failedAssumptions ++ [mkEntry env c.site c.msg],
          assumptionLocals := st.assumptionLocals ++
            (if env.showlocals then [prettyLocals env c.callerLocals] else []) }
      else st := by
  cases h : c.expr.truthy <;> cases h2 : env.showlocals <;>
    simp [assumeStep, assume, h, h2]

lemma runChecks_cons (env : Env) (c : CheckCall) (cs : List CheckCall)
    (st : PluginState) :
    runChecks env (c :: cs) st = runChecks env cs (assumeStep env c st) := rfl

lemma failingCalls_cons (c : CheckCall) (cs : List CheckCall) :
    failingCalls (c :: cs) =
      if !c.expr.truthy then c :: failingCalls cs else failingCalls cs := by
  simp only [failingCalls, List.filter_cons]

/-- Running a body's checks appends one entry per failing call, in program
order, and (iff `--showlocals` is on) one locals snapshot per failing call. -/
lemma runChecks_spec (env : Env) (calls : List CheckCall) (st : PluginState) :
    runChecks env calls st =
      { failedAssumptions := st.failedAssumptions ++
          (failingCalls calls).map (fun c => mkEntry env c.site c.msg),
        assumptionLocals := st.assumptionLocals ++
          (if env.showlocals then
            (failingCalls calls).map (fun c => prettyLocals env c.callerLocals)
          else []) } := by
  induction calls generalizing st with
  | nil =>
      cases h2 : env.showlocals <;> simp [runChecks, failingCalls, h2]
  | cons c cs ih =>
      rw [runChecks_cons, ih, assumeStep_eq, failingCalls_cons]
      cases h : c.expr.truthy <;> cases h2 : env.showlocals <;>
        simp [h, h2, List.append_assoc]

/-- The finalization step leaves the globals empty whenever any assumption
had failed, and leaves the state untouched otherwise. -/
lemma pytest_pyfunc_call_state (outcome : Option Outcome) (st : PluginState) :
    (pytest_pyfunc_call outcome st).2 =
      if st.failedAssumptions.isEmpty then st else emptyState := by
  rcases outcome with _ | ⟨_ | e⟩ <;>
    cases h : st.failedAssumptions.isEmpty <;>
      simp [pytest_pyfunc_call, h, emptyState]

/-- A whole test unit, started on empty globals, always ends with empty
globals, whatever its calls and outcome. -/
lemma runTestUnit_state_empty (env : Env) (calls : List CheckCall)
    (outcome : Option Outcome) :
    (runTestUnit env calls outcome emptyState).2 = emptyState := by
  rw [runTestUnit, runChecks_spec, pytest_pyfunc_call_state]
  cases hfc : failingCalls calls with
  | nil => cases h2 : env.showlocals <;> simp [emptyState]
  | cons c cs => simp [emptyState]

/- ### Interleaved execution over the shared module-level globals

`_FAILED_ASSUMPTIONS` and `_ASSUMPTION_LOCALS` are single module-level
lists; when several test units are in flight in one process (e.g. threads),
their `assume` calls and finalizations all act on that one shared state.
A trace is an arbitrary interleaving of such events. -/

/-- One observable event of some in-flight test unit, tagged with the unit
it belongs to. -/
inductive Event where
  | check (uid : Nat) (c : CheckCall)
  | finalize (uid : Nat) (outcome : Option Outcome)

/-- Effect of one event on the shared globals, also accumulating the result
each finalization produces for its unit. -/
def traceStep (env : Env) (acc : PluginState × List (Nat × FinalResult))
    (e : Event) : PluginState × List (Nat × FinalResult) :=
  match e with
  | .check _ c => (assumeStep env c acc.1, acc.2)
  | .finalize u outcome =>
    let r := pytest_pyfunc_call outcome acc.1
    (r.2, acc.2 ++ [(u, r.1)])

/-- Run a trace of events from a given shared state and report accumulator. -/
def runTraceFrom (env : Env) (events : List Event)
    (acc : PluginState × List (Nat × FinalResult)) :
    PluginState × List (Nat × FinalResult) :=
  events.foldl (traceStep env) acc

/-- Run a trace from module import (both globals empty, no reports yet). -/
def runTrace (env : Env) (events : List Event) :
    PluginState × List (Nat × FinalResult) :=
  runTraceFrom env events (emptyState, [])

/-- One test unit as a block of events: its body's checks in program order,
then its finalization. -/
structure UnitRun where
  uid : Nat
  calls : List CheckCall
  outcome : Option Outcome

/-- The event block of one test unit. -/
def unitEvents (u : UnitRun) : List Event :=
  u.calls.map (Event.check u.uid) ++ [Event.finalize u.uid u.outcome]

/-- Strictly sequential execution: the units' blocks one after another,
never interleaved. -/
def seqEvents (units : List UnitRun) : List Event :=
  (units.map unitEvents).flatten

lemma runTraceFrom_append (env : Env) (l1 l2 : List Event)
    (acc : PluginState × List (Nat × FinalResult)) :
    runTraceFrom env (l1 ++ l2) acc =
      runTraceFrom env l2 (runTraceFrom env l1 acc) := by
  simp [runTraceFrom, List.foldl_append]

lemma runTraceFrom_checks (env : Env) (u : Nat) (calls : List CheckCall)
    (st : PluginState) (rs : List (Nat × FinalResult)) :
    runTraceFrom env (calls.map (Event.check u)) (st, rs) =
      (runChecks env calls st, rs) := by
  induction calls generalizing st with
  | nil => rfl
  | cons c cs ih =>
      show runTraceFrom env (cs.map (Event.check u)) (assumeStep env c st, rs) = _
      rw [ih]
      rfl

lemma runTraceFrom_unit (env : Env) (u : UnitRun)
    (rs : List (Nat × FinalResult)) :
    runTraceFrom env (unitEvents u) (emptyState, rs) =
      (emptyState,
        rs ++ [(u.uid, (runTestUnit env u.calls u.outcome emptyState).1)]) := by
  rw [unitEvents, runTraceFrom_append, runTraceFrom_checks]
  show ((pytest_pyfunc_call u.outcome (runChecks env u.calls emptyState)).2,
      rs ++ [(u.uid,
        (pytest_pyfunc_call u.outcome (runChecks env u.calls emptyState)).1)]) = _
  rw [show pytest_pyfunc_call u.outcome (runChecks env u.calls emptyState) =
        runTestUnit env u.calls u.outcome emptyState from rfl,
      runTestUnit_state_empty]

lemma runTraceFrom_seq (env : Env) (units : List UnitRun)
    (rs : List (Nat × FinalResult)) :
    runTraceFrom env (seqEvents units) (emptyState, rs) =
      (emptyState,
        rs ++ units.map
          (fun u => (u.uid, (runTestUnit env u.calls u.outcome emptyState).1))) := by
  induction units generalizing rs with
  | nil => simp [seqEvents, runTraceFrom]
  | cons u us ih =>
      have h1 : seqEvents (u :: us) = unitEvents u ++ seqEvents us := by
        simp [seqEvents]
      rw [h1, runTraceFrom_append, runTraceFrom_unit, ih]
      simp

/-- Finalization on a state with pending failures, when a hard failure with
excinfo `e` is in flight: the aggregated message and the re-raise traceback. -/
lemma pytest_pyfunc_call_excinfo (e : ExcInfo) (st : PluginState)
    (h : st.failedAssumptions.isEmpty = false) :
    pytest_pyfunc_call (some ⟨some e⟩) st =
      (FinalResult.failedAssumption
        ("\nOriginal Failure: \n>> " ++ e.excRepr ++ "\n"
          ++ ("\n" ++ toString st.failedAssumptions.length
              ++ " Failed Assumptions:\n")
          ++ String.join (renderLongrepr st.failedAssumptions st.assumptionLocals))
        (some e.tb), emptyState) := by
  simp [pytest_pyfunc_call, h, emptyState]

/- ### Claim theorems -/

/-- C1: for every input `expr` (any Python value, coerced to a truth value)
and any message, `assume` never raises: it is a total function that, when
`expr` is falsy, only appends one `FailureRecord` entry to the buffer and
returns, and when `expr` is truthy, returns with the state untouched. -/
theorem assume_never_raises (env : Env) (expr : PyVal) (msg : String)
    (site : CallSite) (callerLocals : List (String × PyVal)) (st : PluginState) :
    (expr.truthy = true →
      assume env expr msg site callerLocals st = (PyVal.bool true, st)) ∧
    (expr.truthy = false →
      (assume env expr msg site callerLocals st).1 = PyVal.bool false ∧
      (assume env expr msg site callerLocals st).2.failedAssumptions =
        st.failedAssumptions ++ [mkEntry env site msg]) := by
  constructor
  · intro h
    simp [assume, h]
  · intro h
    cases h2 : env.showlocals <;> simp [assume, h, h2]

/-- Witness for C1: a truthy non-boolean value returns with no effect, a
falsy value records exactly one entry. -/
theorem assume_never_raises_witness :
    (assume envNoLocals (PyVal.int 7) "" siteA [] emptyState
      = (PyVal.bool true, emptyState)) ∧
    ((assume envNoLocals (PyVal.int 0) "" siteA [] emptyState).1
        = PyVal.bool false ∧
      (assume envNoLocals (PyVal.int 0) "" siteA [] emptyState).2.failedAssumptions =
        emptyState.failedAssumptions ++ [mkEntry envNoLocals siteA ""]) :=
  ⟨(assume_never_raises envNoLocals (PyVal.int 7) "" siteA [] emptyState).1
      (by decide),
   (assume_never_raises envNoLocals (PyVal.int 0) "" siteA [] emptyState).2
      (by decide)⟩

/-- C2: when at least one check in the test unit was false, the aggregated
report (here on a run with `--showlocals` off, where the entries are joined
verbatim) carries exactly one entry per false call, in call order, behind a
header of the exact form made of a newline, the count of false calls, and
the text `Failed Assumptions:` with a trailing newline; only the
original-failure note of a hard failure may precede the header. -/
theorem report_itemizes_each_failure (env : Env) (calls : List CheckCall)
    (outcome : Option Outcome) (hsl : env.showlocals = false)
    (hne : failingCalls calls ≠ []) :
    ∃ tb : Option Nat,
      runTestUnit env calls outcome emptyState =
        (FinalResult.failedAssumption
          (originalNote outcome ++
            ("\n" ++ toString (entriesOf env calls).length
              ++ " Failed Assumptions:\n")
            ++ String.intercalate "\n\n" (entriesOf env calls)) tb,
         emptyState) := by
  have hstate : runChecks env calls emptyState =
      { failedAssumptions := entriesOf env calls, assumptionLocals := [] } := by
    rw [runChecks_spec]
    simp [hsl, emptyState, entriesOf]
  have hne2 : (entriesOf env calls).isEmpty = false := by
    cases hfc : failingCalls calls with
    | nil => exact absurd hfc hne
    | cons c cs => simp [entriesOf, hfc]
  rw [runTestUnit, hstate]
  rcases outcome with _ | ⟨_ | e⟩
  · exact ⟨Option.none, by
      simp [pytest_pyfunc_call, hne2, renderLongrepr, originalNote,
        strJoinSingleton, String.empty_append, emptyState]⟩
  · exact ⟨Option.none, by
      simp [pytest_pyfunc_call, hne2, renderLongrepr, originalNote,
        strJoinSingleton, String.empty_append, emptyState]⟩
  · exact ⟨some e.tb, by
      simp [pytest_pyfunc_call, hne2, renderLongrepr, originalNote,
        strJoinSingleton, String.empty_append, emptyState]⟩

/-- Witness for C2: three checks of which the first and third fail. -/
theorem report_itemizes_each_failure_witness :
    ∃ tb : Option Nat,
      runTestUnit envNoLocals [callA, callTrue, callB] Option.none emptyState =
        (FinalResult.failedAssumption
          (originalNote Option.none ++
            ("\n" ++ toString (entriesOf envNoLocals [callA, callTrue, callB]).length
              ++ " Failed Assumptions:\n")
            ++ String.intercalate "\n\n"
                (entriesOf envNoLocals [callA, callTrue, callB])) tb,
         emptyState) :=
  report_itemizes_each_failure envNoLocals [callA, callTrue, callB] Option.none
    rfl (by decide)

/-- C3: with pending soft failures and a hard failure in flight, the raised
message starts with the original-failure note (exact form: newline,
`Original Failure: `, newline, `>> `, the repr of the original error,
newline) before the count header, and the raised error carries the original
traceback (the third `excinfo` component) rather than a fresh one. -/
theorem original_failure_preserved (env : Env) (calls : List CheckCall)
    (o : Outcome) (e : ExcInfo) (he : o.excinfo = some e)
    (hne : failingCalls calls ≠ []) :
    ∃ body : String,
      runTestUnit env calls (some o) emptyState =
        (FinalResult.failedAssumption
          ("\nOriginal Failure: \n>> " ++ e.excRepr ++ "\n"
            ++ ("\n" ++ toString (failingCalls calls).length
                ++ " Failed Assumptions:\n")
            ++ body) (some e.tb), emptyState) := by
  have ho : o = ⟨some e⟩ := by
    cases o
    simpa using he
  obtain ⟨c, cs, hfc⟩ : ∃ c cs, failingCalls calls = c :: cs := by
    cases hfc : failingCalls calls with
    | nil => exact absurd hfc hne
    | cons c cs => exact ⟨c, cs, rfl⟩
  have hfa : (runChecks env calls emptyState).failedAssumptions =
      entriesOf env calls := by
    rw [runChecks_spec]
    simp [entriesOf, emptyState]
  have hE : (runChecks env calls emptyState).failedAssumptions.isEmpty = false := by
    rw [hfa]
    simp [entriesOf, hfc]
  have hlen : (runChecks env calls emptyState).failedAssumptions.length =
      (failingCalls calls).length := by
    rw [hfa]
    simp [entriesOf]
  refine ⟨String.join (renderLongrepr
      (runChecks env calls emptyState).failedAssumptions
      (runChecks env calls emptyState).assumptionLocals), ?_⟩
  rw [runTestUnit, ho, pytest_pyfunc_call_excinfo e _ hE, hlen]

/-- Witness for C3: one failed check plus a hard `AssertionError`. -/
theorem original_failure_preserved_witness :
    ∃ body : String,
      runTestUnit envNoLocals [callA] (some outcomeSample) emptyState =
        (FinalResult.failedAssumption
          ("\nOriginal Failure: \n>> " ++ excSample.excRepr ++ "\n"
            ++ ("\n" ++ toString (failingCalls [callA]).length
                ++ " Failed Assumptions:\n")
            ++ body) (some excSample.tb), emptyState) :=
  original_failure_preserved envNoLocals [callA] outcomeSample excSample rfl
    (by decide)

/-- C4: with an empty buffer at finalization, nothing is raised and the
state is untouched, so the original outcome (pass or hard failure)
propagates unchanged; in particular a test unit whose checks were all true
finalizes as a plain pass. -/
theorem empty_buffer_passthrough :
    (∀ (outcome : Option Outcome) (st : PluginState),
      st.failedAssumptions = [] →
      pytest_pyfunc_call outcome st = (FinalResult.passthrough, st)) ∧
    (∀ (env : Env) (calls : List CheckCall) (outcome : Option Outcome),
      (∀ c ∈ calls, c.expr.truthy = true) →
      runTestUnit env calls outcome emptyState =
        (FinalResult.passthrough, emptyState)) := by
  have h1 : ∀ (outcome : Option Outcome) (st : PluginState),
      st.failedAssumptions = [] →
      pytest_pyfunc_call outcome st = (FinalResult.passthrough, st) := by
    intro outcome st h
    simp [pytest_pyfunc_call, h]
  refine ⟨h1, ?_⟩
  intro env calls outcome hall
  have hfc : failingCalls calls = [] := by
    rw [failingCalls, List.filter_eq_nil_iff]
    intro c hc
    simp [hall c hc]
  rw [runTestUnit, runChecks_spec, hfc]
  cases h2 : env.showlocals <;> simp [h1, emptyState, h2]

/-- Witness for C4: a hard failure alone passes through untouched, and an
all-true unit finalizes as a pass. -/
theorem empty_buffer_passthrough_witness :
    pytest_pyfunc_call (some outcomeSample) emptyState
      = (FinalResult.passthrough, emptyState) ∧
    runTestUnit envNoLocals [callTrue] Option.none emptyState
      = (FinalResult.passthrough, emptyState) :=
  ⟨empty_buffer_passthrough.1 (some outcomeSample) emptyState rfl,
   empty_buffer_passthrough.2 envNoLocals [callTrue] Option.none (by decide)⟩

/-- counterexample to C5: `assume` does not return `expr` unchanged — on the
truthy non-boolean value `5` it returns the Python boolean `True`, which is
a different value. -/
theorem assume_return_value_cex :
    (assume envNoLocals (PyVal.int 5) "" siteA [] emptyState).1
      = PyVal.bool true ∧ PyVal.bool true ≠ PyVal.int 5 := by
  decide

/-- C5 amended: `assume` returns the truth value of `expr` as a Python
boolean (`True` when `expr` is truthy, `False` when falsy), not `expr`
itself; callers may still branch on the returned boolean. -/
theorem assume_returns_truthiness (env : Env) (expr : PyVal) (msg : String)
    (site : CallSite) (callerLocals : List (String × PyVal)) (st : PluginState) :
    (assume env expr msg site callerLocals st).1 = PyVal.bool expr.truthy := by
  cases h : expr.truthy <;> simp [assume, h]

/-- C6: a failed check records exactly the entry
`<relpath>:<line>: AssumptionFailure`, newline, `>>`, tab, then the context,
where the context is the caller's message verbatim when non-empty and the
call site's source line with leading whitespace stripped otherwise. -/
theorem entry_format_and_context (env : Env) (expr : PyVal) (msg : String)
    (site : CallSite) (callerLocals : List (String × PyVal)) (st : PluginState)
    (h : expr.truthy = false) :
    (assume env expr msg site callerLocals st).2.failedAssumptions =
      st.failedAssumptions ++
        [env.relpath site.filename ++ ":" ++ toString site.line
          ++ ": AssumptionFailure\n>>\t"
          ++ (if msg.isEmpty then lstrip site.srcLine else msg)] := by
  cases h2 : env.showlocals <;> simp [assume, h, h2, mkEntry]

/-- Witness for C6: one failed check with a custom message (used verbatim)
and one with no message (source line, leading whitespace stripped). -/
theorem entry_format_and_context_witness :
    ((assume envNoLocals (PyVal.bool false) "custom message" siteA []
        emptyState).2.failedAssumptions =
      emptyState.failedAssumptions ++
        [envNoLocals.relpath siteA.filename ++ ":" ++ toString siteA.line
          ++ ": AssumptionFailure\n>>\t"
          ++ (if ("custom message").isEmpty then lstrip siteA.srcLine
              else "custom message")]) ∧
    ((assume envNoLocals (PyVal.bool false) "" siteB []
        emptyState).2.failedAssumptions =
      emptyState.failedAssumptions ++
        [envNoLocals.relpath siteB.filename ++ ":" ++ toString siteB.line
          ++ ": AssumptionFailure\n>>\t"
          ++ (if ("").isEmpty then lstrip siteB.srcLine else "")]) :=
  ⟨entry_format_and_context envNoLocals (PyVal.bool false) "custom message"
      siteA [] emptyState rfl,
   entry_format_and_context envNoLocals (PyVal.bool false) "" siteB []
      emptyState rfl⟩

/-- C7: finalization always leaves both global buffers empty whatever the
exit path, a second finalization with no intervening failed check is a
passthrough returning nothing, and in a sequential run every unit therefore
starts on an empty buffer: each unit's reported result is exactly what it
would produce in isolation from an empty buffer. -/
theorem buffer_drained_every_exit :
    (∀ (env : Env) (calls : List CheckCall) (outcome : Option Outcome),
      (runTestUnit env calls outcome emptyState).2 = emptyState) ∧
    (∀ (env : Env) (calls : List CheckCall) (outcome outcome2 : Option Outcome),
      pytest_pyfunc_call outcome2 ((runTestUnit env calls outcome emptyState).2)
        = (FinalResult.passthrough, emptyState)) ∧
    (∀ (env : Env) (units : List UnitRun),
      runTrace env (seqEvents units) =
        (emptyState, units.map
          (fun u => (u.uid, (runTestUnit env u.calls u.outcome emptyState).1)))) := by
  refine ⟨runTestUnit_state_empty, ?_, ?_⟩
  · intro env calls outcome outcome2
    rw [runTestUnit_state_empty]
    simp [pytest_pyfunc_call, emptyState]
  · intro env units
    have h := runTraceFrom_seq env units []
    simpa [runTrace] using h

/-- C8, failing input: a run configured with `--assume-max-repr-len` 5 and
`--showlocals` on. The option never reaches the ambient state
`pytest_configure` builds, the whole run is unchanged whether the option is
5 or its default 240, and the recorded locals line holds the full
10-character repr untruncated. -/
theorem max_repr_len_option_unused :
    pytest_configure ⟨true, 5⟩ id reprPy
      = pytest_configure ⟨true, 240⟩ id reprPy ∧
    runTestUnit (pytest_configure ⟨true, 5⟩ id reprPy) [longLocalCall]
        Option.none emptyState
      = runTestUnit (pytest_configure ⟨true, 240⟩ id reprPy) [longLocalCall]
        Option.none emptyState ∧
    (runChecks (pytest_configure ⟨true, 5⟩ id reprPy) [longLocalCall]
        emptyState).assumptionLocals
      = [["\tx          = abcdefghij"]] :=
  ⟨rfl, rfl, rfl⟩

/-- counterexample to C9: the buffer is one module-level list shared by all
in-flight units. In the interleaving where unit 0 records a failure, then
unit 1 records one and finalizes, unit 1's aggregated report counts two
failures and contains the entry unit 0 recorded (the first conjunct shows
that entry is exactly what unit 0's lone check leaves in the buffer). -/
theorem shared_buffer_leak_cex :
    (runTrace envNoLocals [Event.check 0 callA]).1.failedAssumptions
      = ["test_a.py:3: AssumptionFailure\n>>\tpytest.assume(False)"] ∧
    (runTrace envNoLocals
        [Event.check 0 callA, Event.check 1 callB,
         Event.finalize 1 Option.none]).2
      = [(1, FinalResult.failedAssumption
          "\n2 Failed Assumptions:\ntest_a.py:3: AssumptionFailure\n>>\tpytest.assume(False)\n\ntest_b.py:7: AssumptionFailure\n>>\tpytest.assume(x == 2)"
          Option.none)] := by
  constructor <;> decide

/-- C9 amended: the accumulation buffer is a single module-level sequence
shared by every test unit in the process, not one logical buffer per
execution context; failures leak between interleaved units, and only under
strictly sequential execution (each unit's checks followed by its
finalization) is each unit's report exactly what its own calls produce from
an empty buffer. -/
theorem buffer_shared_but_sequential_isolated (env : Env) (units : List UnitRun) :
    runTrace env (seqEvents units) =
      (emptyState,
        units.map
          (fun u => (u.uid, (runTestUnit env u.calls u.outcome emptyState).1))) := by
  have h := runTraceFrom_seq env units []
  simpa [runTrace] using h

/-- C10: on a run with `--showlocals` on throughout, the locals buffer gets
one snapshot exactly when a failure entry is appended, so the two buffers
have equal length, zipping them pairs the i-th failure with the locals of
the same i-th failing call, and finalization clears both together. -/
theorem locals_paired_with_failures (env : Env) (calls : List CheckCall)
    (outcome : Option Outcome) (hsl : env.showlocals = true) :
    (runChecks env calls emptyState).assumptionLocals.length =
      (runChecks env calls emptyState).failedAssumptions.length ∧
    (runChecks env calls emptyState).failedAssumptions.zip
        (runChecks env calls emptyState).assumptionLocals =
      (failingCalls calls).map
        (fun c => (mkEntry env c.site c.msg, prettyLocals env c.callerLocals)) ∧
    (runTestUnit env calls outcome emptyState).2 = emptyState := by
  refine ⟨?_, ?_, runTestUnit_state_empty env calls outcome⟩
  · rw [runChecks_spec]
    simp [hsl, emptyState]
  · rw [runChecks_spec]
    simp [hsl, emptyState, List.zip_map']

/-- Witness for C10: a showlocals run with one failing check carrying one
local binding. -/
theorem locals_paired_with_failures_witness :
    (runChecks envLocals [longLocalCall] emptyState).assumptionLocals.length =
      (runChecks envLocals [longLocalCall] emptyState).failedAssumptions.length ∧
    (runChecks envLocals [longLocalCall] emptyState).failedAssumptions.zip
        (runChecks envLocals [longLocalCall] emptyState).assumptionLocals =
      (failingCalls [longLocalCall]).map
        (fun c => (mkEntry envLocals c.site c.msg,
          prettyLocals envLocals c.callerLocals)) ∧
    (runTestUnit envLocals [longLocalCall] Option.none emptyState).2 = emptyState :=
  locals_paired_with_failures envLocals [longLocalCall] Option.none rfl

end PytestAssume
